import Mathlib

/-!
Verification model of the auth-retry gateway and its call sites
(`runWithAuthRetry`, `generateImage`, `editImage`, `generateVideo`,
`extractImageFromResponse`).

The failure-classification step of the gateway feeds a caught error's
message through `JSON.parse` and JavaScript string primitives, so the
model begins with a small embedding of JSON values and of the string
operations the code uses (`indexOf`, `lastIndexOf`, `substring`,
`includes`, `split`), each mirroring the JavaScript semantics.
Machine floats are out of scope: JSON numbers are modelled exactly, as
scaled integers, which agrees with JavaScript on the integer literals
the classifier compares against (403, 404, 400).
-/

/-- A JSON number, kept exactly as `mant / 10 ^ scale` (not normalised;
value equality is `JsNum.valEq`). -/
structure JsNum where
  mant : Int
  scale : Nat
deriving DecidableEq

/-- Value equality of two parsed numbers (the `===` of two numbers in
the host language, floating-point rounding aside). -/
def JsNum.valEq (a b : JsNum) : Bool :=
  a.mant * (10 : Int) ^ b.scale = b.mant * (10 : Int) ^ a.scale

/-- A JSON value as produced by parsing, also used for the gateway's
working message once a nested error message (of any JSON type) has
replaced it. -/
inductive JsVal where
  | null
  | bool (b : Bool)
  | num (n : JsNum)
  | str (s : String)
  | arr (elems : List JsVal)
  | obj (fields : List (String × JsVal))

/-- JSON whitespace. -/
def isJsonWs (c : Char) : Bool :=
  c = ' ' || c = '\t' || c = '\n' || c = '\r'

/-- Drop leading JSON whitespace. -/
def skipWs : List Char → List Char
  | [] => []
  | c :: cs => if isJsonWs c then skipWs cs else c :: cs

/-- Value of a hexadecimal digit. -/
def hexVal (c : Char) : Option Nat :=
  if '0' ≤ c ∧ c ≤ '9' then some (c.toNat - 48)
  else if 'a' ≤ c ∧ c ≤ 'f' then some (c.toNat - 87)
  else if 'A' ≤ c ∧ c ≤ 'F' then some (c.toNat - 55)
  else none

/-- Value of a decimal digit. -/
def digitVal (c : Char) : Option Nat :=
  if '0' ≤ c ∧ c ≤ '9' then some (c.toNat - 48) else none

/-- Split off a maximal run of leading decimal digits. -/
def takeDigits : List Char → (List Nat × List Char)
  | [] => ([], [])
  | c :: cs =>
    match digitVal c with
    | some d =>
      let p := takeDigits cs
      (d :: p.1, p.2)
    | none => ([], c :: cs)

/-- Read a digit list as a natural number. -/
def digitsToNat (ds : List Nat) : Nat :=
  ds.foldl (fun a d => a * 10 + d) 0

/-- Body of a JSON string literal, positioned after the opening quote;
returns the decoded string and the remaining input.  Handles the JSON
escapes; a `\u` escape denoting an invalid code point falls back to
`Char.ofNat`'s default (UTF-16 surrogate pairs are outside the model). -/
def parseStr : List Char → List Char → Option (String × List Char)
  | [], _ => none
  | '"' :: rest, acc => some (String.mk acc.reverse, rest)
  | '\\' :: rest, acc =>
    match rest with
    | '"' :: r => parseStr r ('"' :: acc)
    | '\\' :: r => parseStr r ('\\' :: acc)
    | '/' :: r => parseStr r ('/' :: acc)
    | 'b' :: r => parseStr r ('\x08' :: acc)
    | 'f' :: r => parseStr r ('\x0c' :: acc)
    | 'n' :: r => parseStr r ('\n' :: acc)
    | 'r' :: r => parseStr r ('\r' :: acc)
    | 't' :: r => parseStr r ('\t' :: acc)
    | 'u' :: h1 :: h2 :: h3 :: h4 :: r =>
      match hexVal h1, hexVal h2, hexVal h3, hexVal h4 with
      | some a, some b, some c, some d =>
        parseStr r (Char.ofNat (((a * 16 + b) * 16 + c) * 16 + d) :: acc)
      | _, _, _, _ => none
    | _ => none
  | c :: rest, acc =>
    if c.toNat < 32 then none else parseStr rest (c :: acc)

/-- A JSON number token: sign, integer part (`0` or no leading zero),
optional fraction, optional exponent; value assembled exactly as a
scaled integer. -/
def parseNumber (cs : List Char) : Option (JsNum × List Char) :=
  let signed := match cs with
    | '-' :: r => (true, r)
    | _ => (false, cs)
  let neg := signed.1
  let cs1 := signed.2
  let intPart : Option (List Nat × List Char) :=
    match cs1 with
    | '0' :: r => some ([0], r)
    | c :: _ =>
      match digitVal c with
      | some _ => some (takeDigits cs1)
      | none => none
    | [] => none
  match intPart with
  | none => none
  | some (intDs, cs2) =>
    let fracPart : Option (List Nat × List Char) :=
      match cs2 with
      | '.' :: r =>
        let p := takeDigits r
        if p.1.isEmpty then none else some p
      | _ => some ([], cs2)
    match fracPart with
    | none => none
    | some (fracDs, cs3) =>
      let expPart : Option (Bool × Nat × List Char) :=
        match cs3 with
        | 'e' :: r | 'E' :: r =>
          let se := match r with
            | '+' :: r2 => (false, r2)
            | '-' :: r2 => (true, r2)
            | _ => (false, r)
          let p := takeDigits se.2
          if p.1.isEmpty then none else some (se.1, digitsToNat p.1, p.2)
        | _ => some (false, 0, cs3)
      match expPart with
      | none => none
      | some (expNeg, expVal, cs4) =>
        let mant : Int := (digitsToNat (intDs ++ fracDs) : Int)
        let mant := if neg then -mant else mant
        let q : JsNum :=
          if expNeg then ⟨mant, fracDs.length + expVal⟩
          else ⟨mant * (10 : Int) ^ expVal, fracDs.length⟩
        some (q, cs4)

mutual

/-- A JSON value, by recursive descent with explicit fuel; every
recursive call consumes at least one input character, so fuel
`length + 1` suffices at top level. -/
def parseValue : Nat → List Char → Option (JsVal × List Char)
  | 0, _ => none
  | fuel + 1, cs =>
    match skipWs cs with
    | [] => none
    | c :: rest =>
      if c = '\x7b' then parseMembers fuel (skipWs rest) []
      else if c = '[' then parseElems fuel (skipWs rest) []
      else if c = '"' then
        match parseStr rest [] with
        | some (s, r) => some (JsVal.str s, r)
        | none => none
      else if c = 't' then
        if ['r', 'u', 'e'].isPrefixOf rest then some (JsVal.bool true, rest.drop 3) else none
      else if c = 'f' then
        if ['a', 'l', 's', 'e'].isPrefixOf rest then some (JsVal.bool false, rest.drop 4) else none
      else if c = 'n' then
        if ['u', 'l', 'l'].isPrefixOf rest then some (JsVal.null, rest.drop 3) else none
      else
        match parseNumber (c :: rest) with
        | some (q, r) => some (JsVal.num q, r)
        | none => none

/-- Members of a JSON object, positioned after `{` (and after `,` on
subsequent entries); `acc` holds earlier fields in reverse. -/
def parseMembers : Nat → List Char → List (String × JsVal) → Option (JsVal × List Char)
  | 0, _, _ => none
  | fuel + 1, cs, acc =>
    match cs with
    | '\x7d' :: rest =>
      if acc.isEmpty then some (JsVal.obj [], rest) else none
    | '"' :: rest =>
      match parseStr rest [] with
      | none => none
      | some (k, r1) =>
        match skipWs r1 with
        | ':' :: r2 =>
          match parseValue fuel r2 with
          | none => none
          | some (v, r3) =>
            match skipWs r3 with
            | ',' :: r4 => parseMembers fuel (skipWs r4) ((k, v) :: acc)
            | '\x7d' :: r4 => some (JsVal.obj ((k, v) :: acc).reverse, r4)
            | _ => none
        | _ => none
    | _ => none

/-- Elements of a JSON array, positioned after `[` (and after `,`);
`acc` holds earlier elements in reverse. -/
def parseElems : Nat → List Char → List JsVal → Option (JsVal × List Char)
  | 0, _, _ => none
  | fuel + 1, cs, acc =>
    match cs with
    | ']' :: rest =>
      if acc.isEmpty then some (JsVal.arr [], rest) else none
    | _ =>
      match parseValue fuel cs with
      | none => none
      | some (v, r1) =>
        match skipWs r1 with
        | ',' :: r2 => parseElems fuel (skipWs r2) (v :: acc)
        | ']' :: r2 => some (JsVal.arr (v :: acc).reverse, r2)
        | _ => none

end

/-- `JSON.parse`: a single value with only whitespace around it. -/
def parseJson (cs : List Char) : Option JsVal :=
  match parseValue (cs.length + 1) cs with
  | some (v, rest) => if (skipWs rest).isEmpty then some v else none
  | none => none

/-- `String.prototype.indexOf` for a single character: index of the
first occurrence, as an option in place of `-1`. -/
def charIndexOf (c : Char) : List Char → Option Nat
  | [] => none
  | x :: xs => if x = c then some 0 else (charIndexOf c xs).map (· + 1)

/-- `String.prototype.lastIndexOf` for a single character. -/
def charLastIndexOf (c : Char) (cs : List Char) : Option Nat :=
  (charIndexOf c cs.reverse).map (fun i => cs.length - 1 - i)

/-- `String.prototype.substring`: clamps both indices to the length and
swaps them when start exceeds end. -/
def jsSubstring (cs : List Char) (a b : Nat) : List Char :=
  let len := cs.length
  let a' := min a len
  let b' := min b len
  let lo := min a' b'
  let hi := max a' b'
  (cs.drop lo).take (hi - lo)

/-- `String.prototype.includes`: `needle` occurs as a contiguous
substring of `hay` (always true for the empty needle). -/
def listContains (hay needle : List Char) : Bool :=
  if needle.isPrefixOf hay then true
  else
    match hay with
    | [] => false
    | _ :: t => listContains t needle

/-- `includes` on `String`s. -/
def strContains (hay pat : String) : Bool :=
  listContains hay.data pat.data

/-- Property lookup on a parsed JSON object: with duplicate keys,
`JSON.parse` keeps the value written last, so the last binding wins;
on any non-object the access yields `undefined` (`none`). -/
def lookupLast (fs : List (String × JsVal)) (k : String) : Option JsVal :=
  match fs with
  | [] => none
  | (k', v) :: rest =>
    match lookupLast rest k with
    | some r => some r
    | none => if k' = k then some v else none

/-- `value.key` property access (`undefined` as `none`). -/
def jsGet (v : JsVal) (k : String) : Option JsVal :=
  match v with
  | .obj fs => lookupLast fs k
  | _ => none

/-- Truthiness of a possibly-undefined value. -/
def jsTruthy : Option JsVal → Bool
  | none => false
  | some .null => false
  | some (.bool b) => b
  | some (.num n) => !(n.mant = 0)
  | some (.str s) => !(s = "")
  | some (.arr _) => true
  | some (.obj _) => true

/-- `v === k` for an integer literal `k`. -/
def isNumEq (v : Option JsVal) (k : Int) : Bool :=
  match v with
  | some (.num n) => n.valEq ⟨k, 0⟩
  | _ => false

/-- `v === s` for a string literal `s`. -/
def isStrEq (v : Option JsVal) (s : String) : Bool :=
  match v with
  | some (.str t) => t = s
  | _ => false

/-- `m && m.includes("quota")` for a truthy nested message `m`: strings
check substring containment, arrays check membership under `===`; any
other truthy value has no `includes` method, so evaluating the
condition throws a `TypeError` (modelled as `Except.error`), which the
surrounding try/catch of the parsing step swallows. -/
def includesQuota : JsVal → Except Unit Bool
  | .str s => .ok (strContains s "quota")
  | .arr xs => .ok (xs.any fun x => match x with | .str t => t = "quota" | _ => false)
  | _ => .error ()

/-- The classification condition evaluated on the nested error
descriptor (source lines 50–57), with the short-circuit order of `||`:
a `TypeError` from the final conjunct surfaces only when no earlier
disjunct matched. -/
def evalPermCond (err : JsVal) : Except Unit Bool :=
  if isNumEq (jsGet err "code") 403 then .ok true
  else if isStrEq (jsGet err "status") "PERMISSION_DENIED" then .ok true
  else if isNumEq (jsGet err "code") 404 then .ok true
  else if isStrEq (jsGet err "status") "NOT_FOUND" then .ok true
  else if isNumEq (jsGet err "code") 400 then .ok true
  else
    match jsGet err "message" with
    | some m => if jsTruthy (some m) then includesQuota m else .ok false
    | none => .ok false

/-- The gateway's working state after a classification step: the
working message (a string unless a truthy non-string nested message
replaced it) and the `isPermissionError` flag. -/
structure WorkingState where
  msg : JsVal
  isPerm : Bool

/-- Step 2 of the gateway (source lines 42–65): locate a fragment
between the first `{` and the last `}`, `JSON.parse` it, and on a
truthy nested `error` descriptor evaluate the classification condition
and replace the working message with a truthy nested `message`; any
exception inside (parse failure or `TypeError`) leaves message and flag
unchanged. -/
def jsonStep (raw : String) : WorkingState :=
  let cs := raw.data
  match charIndexOf '\x7b' cs, charLastIndexOf '\x7d' cs with
  | some a, some b =>
    match parseJson (jsSubstring cs a (b + 1)) with
    | some parsed =>
      match jsGet parsed "error" with
      | some errv =>
        if jsTruthy (some errv) then
          match evalPermCond errv with
          | .ok isPerm =>
            let msgNew := match jsGet errv "message" with
              | some m => if jsTruthy (some m) then m else JsVal.str raw
              | none => JsVal.str raw
            ⟨msgNew, isPerm⟩
          | .error _ => ⟨JsVal.str raw, false⟩
        else ⟨JsVal.str raw, false⟩
      | none => ⟨JsVal.str raw, false⟩
    | none => ⟨JsVal.str raw, false⟩
  | _, _ => ⟨JsVal.str raw, false⟩

/-- The fixed fallback pattern list of step 3 (source lines 69–80). -/
def retryPatterns : List String :=
  ["403", "PERMISSION_DENIED", "The caller does not have permission",
   "API_KEY is not defined", "API key not valid", "INVALID_ARGUMENT",
   "quota", "404", "NOT_FOUND", "Requested entity was not found"]

/-- `msg.includes(pat)` on the working message.  After the parsing step
the working message is a string or (via a truthy array-typed nested
message) an array, both of which carry `includes`; other shapes are
unreachable there and return `false`. -/
def msgIncludes (m : JsVal) (pat : String) : Bool :=
  match m with
  | .str s => strContains s pat
  | .arr xs => xs.any fun x => match x with | .str t => t = pat | _ => false
  | _ => false

/-- Step 3 of the gateway: the fallback substring scan of the working
message against the fixed pattern list. -/
def fallbackMatch (m : JsVal) : Bool :=
  retryPatterns.any (msgIncludes m)

/-- Steps 2–3 combined: the working message and retryability flag
computed from the extracted raw message. -/
def classifyFailure (raw : String) : WorkingState :=
  let st := jsonStep raw
  if st.isPerm then st else ⟨st.msg, fallbackMatch st.msg⟩

/-- A failure is retryable when classification marks it a
permission-style error. -/
def retryable (raw : String) : Bool :=
  (classifyFailure raw).isPerm

mutual

/-- `String(v)`, as applied by the `Error` constructor to the working
message.  Numeric formatting prints the exact scaled integer; the
float64 formatting of the host is outside the model (no claim touches
a non-integer working message). -/
def jsToString : JsVal → String
  | .null => "null"
  | .bool true => "true"
  | .bool false => "false"
  | .num n =>
    if n.scale = 0 then toString n.mant
    else toString n.mant ++ "e-" ++ toString n.scale
  | .str s => s
  | .arr xs => String.intercalate "," (jsArrStrings xs)
  | .obj _ => "[object Object]"

/-- Elementwise stringification of `Array.prototype.join`: `null`
prints as the empty string. -/
def jsArrStrings : List JsVal → List String
  | [] => []
  | JsVal.null :: xs => "" :: jsArrStrings xs
  | x :: xs => jsToString x :: jsArrStrings xs

end

/-- A caught failure value, by the three branches the gateway
distinguishes when extracting a message (source lines 33–40): an
`Error` instance, a non-null object carried with its `JSON.stringify`
image, or anything else carried with its `String` image. -/
inductive ErrVal where
  | errInstance (message : String)
  | objectVal (stringified : String)
  | primitive (shown : String)
deriving DecidableEq

/-- Step 1 of the gateway: the extracted raw message. -/
def extractMessage : ErrVal → String
  | .errInstance m => m
  | .objectVal j => j
  | .primitive s => s

/-- Outcome of one invocation of an operation thunk. -/
inductive OpOutcome (α : Type) where
  | ok (a : α)
  | err (e : ErrVal)

/-- The ambient collaborators of one gateway call: the outcome of the
n-th invocation of the operation thunk, whether the host exposes the
credential-selection collaborator (`window.aistudio.openSelectKey`),
and whether the credential-selection flow resolves or rejects. -/
structure GatewayEnv (α : Type) where
  op : Nat → OpOutcome α
  aistudioAvailable : Bool
  selectKeyResolves : Bool

/-- Observable outcome of a gateway call: the returned value or the
message of the newly thrown `Error`, with the number of operation
invocations and of credential prompts. -/
structure GatewayRun (α : Type) where
  result : Except String α
  opCalls : Nat
  promptCalls : Nat

/-- The fixed message thrown when the retry block fails
(source line 93). -/
def connectionFailedMsg : String :=
  "Connection failed. Please select a valid API Key."

/-- `runWithAuthRetry(operation, requireAuth)` (source lines 26–101).
The try block of the retry step wraps both the credential prompt and
the second invocation of the operation, so either failing produces the
fixed message. -/
def runWithAuthRetry {α : Type} (env : GatewayEnv α) (requireAuth : Bool) : GatewayRun α :=
  match env.op 0 with
  | .ok a => ⟨.ok a, 1, 0⟩
  | .err e =>
    let st := classifyFailure (extractMessage e)
    if st.isPerm && requireAuth then
      if env.aistudioAvailable then
        if env.selectKeyResolves then
          match env.op 1 with
          | .ok a => ⟨.ok a, 2, 1⟩
          | .err _ => ⟨.error connectionFailedMsg, 2, 1⟩
        else ⟨.error connectionFailedMsg, 1, 1⟩
      else ⟨.error (jsToString st.msg), 1, 0⟩
    else ⟨.error (jsToString st.msg), 1, 0⟩

/-- An `inlineData` field of a content segment. -/
structure InlineData where
  mimeType : String
  data : String
deriving DecidableEq

/-- A content segment of a backend response (also used for request
contents): an optional `inlineData` object and an optional text. -/
structure ContentPart where
  inlineData : Option InlineData
  text : Option String
deriving DecidableEq

/-- `content` of a response candidate. -/
structure GenContent where
  parts : Option (List ContentPart)
deriving DecidableEq

/-- One response candidate. -/
structure Candidate where
  content : Option GenContent
deriving DecidableEq

/-- A content-generation response. -/
structure GenResponse where
  candidates : Option (List Candidate)
deriving DecidableEq

/-- `response.candidates?.[0]?.content?.parts` (source line 111). -/
def getParts (r : GenResponse) : Option (List ContentPart) :=
  match r.candidates with
  | none => none
  | some cs =>
    match cs.head? with
    | none => none
    | some c =>
      match c.content with
      | none => none
      | some ct => ct.parts

/-- Text accumulation of one segment: `if (part.text) textRefusal += part.text`. -/
def accText (p : ContentPart) (acc : String) : String :=
  match p.text with
  | some t => if t = "" then acc else acc ++ t
  | none => acc

/-- The shared scan of response segments (source lines 113–124 and
180–187): the first segment whose `inlineData.data` is truthy yields
the data URI; otherwise text accumulates and the scan ends in the
refusal message (when text accrued) or the generic no-data message. -/
def scanParts (refusalTag noDataMsg : String) : List ContentPart → String → Except String String
  | [], acc => if acc = "" then .error noDataMsg else .error (refusalTag ++ acc)
  | p :: ps, acc =>
    match p.inlineData with
    | some idata =>
      if idata.data = "" then scanParts refusalTag noDataMsg ps (accText p acc)
      else .ok ("data:image/png;base64," ++ idata.data)
    | none => scanParts refusalTag noDataMsg ps (accText p acc)

/-- `extractImageFromResponse` (source lines 110–125). -/
def extractImageFromResponse (r : GenResponse) : Except String String :=
  match getParts r with
  | some ps => scanParts "Model refused: " "No image data returned." ps ""
  | none => .error "No image data returned."

/-- The inlined copy of the scan used by `editImage`
(source lines 177–190), with its own messages. -/
def extractEditResponse (r : GenResponse) : Except String String :=
  match getParts r with
  | some ps => scanParts "Model unable to edit: " "No edited image returned." ps ""
  | none => .error "No edited image returned."

/-- The `AspectRatio` enumeration of `types.ts`. -/
inductive AspectRatio where
  | SQUARE | PORTRAIT | LANDSCAPE | WIDE_PORTRAIT | WIDE_LANDSCAPE
  | CINEMATIC | STANDARD_PORTRAIT | STANDARD_LANDSCAPE
deriving DecidableEq

/-- The `ImageSize` enumeration of `types.ts`. -/
inductive ImageSize where
  | K1 | K2 | K4
deriving DecidableEq

/-- Collaborators of one `generateImage` call: the tier-1 (pro-model)
response as a function of the request, the tier-2 (flash-model)
response per attempt, and the credential collaborator. -/
structure ImageEnv where
  tier1 : String → AspectRatio → ImageSize → OpOutcome GenResponse
  tier2 : String → Nat → OpOutcome GenResponse
  aistudioAvailable : Bool
  selectKeyResolves : Bool

/-- The tier-2 operation thunk handed to the gateway (source lines
144–152): flash call, then extraction, whose failure throws inside the
thunk. -/
def tier2Op (env : ImageEnv) (prompt : String) (n : Nat) : OpOutcome String :=
  match env.tier2 prompt n with
  | .err e => .err e
  | .ok r =>
    match extractImageFromResponse r with
    | .ok uri => .ok uri
    | .error m => .err (.errInstance m)

/-- The gateway environment of the tier-2 attempt. -/
def tier2Gateway (env : ImageEnv) (prompt : String) : GatewayEnv String :=
  ⟨tier2Op env prompt, env.aistudioAvailable, env.selectKeyResolves⟩

/-- Observable outcome of `generateImage`: the result, the number of
tier-2 invocations and of credential prompts (the tier-1 attempt
happens exactly once, outside the gateway). -/
structure ImageRun where
  result : Except String String
  tier2Calls : Nat
  promptCalls : Nat

/-- `generateImage` (source lines 104–154): tier-1 pro attempt outside
the gateway with every failure (network or extraction) swallowed, then
the tier-2 flash attempt through the gateway with `requireAuth = true`. -/
def generateImage (prompt : String) (aspectRatio : AspectRatio) (imageSize : ImageSize)
    (env : ImageEnv) : ImageRun :=
  match env.tier1 prompt aspectRatio imageSize with
  | .ok r =>
    match extractImageFromResponse r with
    | .ok uri => ⟨.ok uri, 0, 0⟩
    | .error _ =>
      let g := runWithAuthRetry (tier2Gateway env prompt) true
      ⟨g.result, g.opCalls, g.promptCalls⟩
  | .err _ =>
    let g := runWithAuthRetry (tier2Gateway env prompt) true
    ⟨g.result, g.opCalls, g.promptCalls⟩

/-- `(base64Image.split(',')[1] || base64Image)` (source line 165):
the part after the first comma, unless absent or empty. -/
def jsSplitGet1OrSelf (s : String) : String :=
  match (s.split (· = ',')).get? 1 with
  | some t => if t = "" then s else t
  | none => s

/-- Collaborators of one `editImage` call: the backend response as a
function of the request contents and the attempt index, and the
credential collaborator. -/
structure EditEnv where
  call : List ContentPart → Nat → OpOutcome GenResponse
  aistudioAvailable : Bool
  selectKeyResolves : Bool

/-- The `editImage` operation thunk (source lines 163–191). -/
def editOp (base64Image prompt mimeType : String) (env : EditEnv) (n : Nat) : OpOutcome String :=
  let base64Data := jsSplitGet1OrSelf base64Image
  let reqParts : List ContentPart := [⟨some ⟨mimeType, base64Data⟩, none⟩, ⟨none, some prompt⟩]
  match env.call reqParts n with
  | .err e => .err e
  | .ok r =>
    match extractEditResponse r with
    | .ok uri => .ok uri
    | .error m => .err (.errInstance m)

/-- `editImage` (source lines 157–194): a single tier through the
gateway with `requireAuth = true`. -/
def editImage (base64Image prompt mimeType : String) (env : EditEnv) : GatewayRun String :=
  runWithAuthRetry ⟨editOp base64Image prompt mimeType env, env.aistudioAvailable, env.selectKeyResolves⟩ true

/-- First capture of the regular expression `data:([^;]+);base64` at
one starting position: the literal `data:`, a nonempty run free of
`;`, then the literal `;base64`. -/
def tryDataUriAt (cs : List Char) : Option String :=
  if ("data:".data).isPrefixOf cs then
    let rest := cs.drop 5
    let cap := rest.takeWhile (fun c => c ≠ ';')
    if cap.isEmpty then none
    else if (";base64".data).isPrefixOf (rest.drop cap.length) then some (String.mk cap)
    else none
  else none

/-- Unanchored search of `data:([^;]+);base64`, earliest match first. -/
def dataUriCapture : List Char → Option String
  | [] => none
  | c :: cs =>
    match tryDataUriAt (c :: cs) with
    | some m => some m
    | none => dataUriCapture cs

/-- `referenceImage.match(/data:([^;]+);base64/)?.[1] || 'image/png'`
(source lines 228 and 257); the capture of a match is nonempty, hence
truthy. -/
def mimeFromDataUri (s : String) : String :=
  match dataUriCapture s.data with
  | some m => m
  | none => "image/png"

/-- `s || dflt` on strings. -/
def jsOrDefault (s dflt : String) : String :=
  if s = "" then dflt else s

/-- The `'16:9' | '9:16'` aspect parameter of `generateVideo`. -/
inductive VideoAspect where
  | wide
  | tall
deriving DecidableEq

/-- The aspect-ratio substitution of the non-pro branch (source
line 232). -/
def vidRatioEnum : VideoAspect → AspectRatio
  | .wide => AspectRatio.WIDE_LANDSCAPE
  | .tall => AspectRatio.WIDE_PORTRAIT

/-- Collaborators of one `generateVideo` call.  The pro-mode Veo
branch (job submission, unbounded five-second polling, download) is
kept abstract as its overall outcome: no claim concerns that branch,
and its polling loop carries no bound to model. -/
structure VideoEnv where
  editEnv : EditEnv
  imgEnv : ImageEnv
  proResult : Except String String

/-- Observable outcome of `generateVideo`: the result and the number
of invocations of the video backend. -/
structure VideoRun where
  result : Except String String
  videoBackendCalls : Nat

/-- `generateVideo` (source lines 218–289): with `useProMode` unset
the request is redirected to `editImage` when a truthy reference image
is supplied (with its sniffed MIME type and a defaulted prompt) and to
`generateImage` otherwise; only the pro branch reaches the video
backend. -/
def generateVideo (prompt : String) (aspectRatio : VideoAspect)
    (referenceImage : Option String) (useProMode : Bool) (env : VideoEnv) : VideoRun :=
  if useProMode = false then
    match (match referenceImage with
           | some r => if r = "" then none else some r
           | none => none : Option String) with
    | some ri =>
      let mimeType := mimeFromDataUri ri
      let g := editImage ri (jsOrDefault prompt "Enhance this") mimeType env.editEnv
      ⟨g.result, 0⟩
    | none =>
      let ratioEnum := vidRatioEnum aspectRatio
      let g := generateImage (jsOrDefault prompt "Preview") ratioEnum ImageSize.K1 env.imgEnv
      ⟨g.result, 0⟩
  else ⟨env.proResult, 1⟩

/-- Spec-side reading of the payload-extraction policy: the inline
binary data of the first segment carrying any ("the first segment
carrying inline binary data is returned as the artifact"). -/
def firstInlineData : List ContentPart → Option String
  | [] => none
  | p :: ps =>
    match p.inlineData with
    | some idata => if idata.data = "" then firstInlineData ps else some idata.data
    | none => firstInlineData ps

/-- Spec-side reading of the refusal accumulation: the concatenated
text of the text segments ("any text segments encountered are
accumulated as a potential model-refusal explanation"). -/
def refusalText : List ContentPart → String
  | [] => ""
  | p :: ps =>
    (match p.text with
     | some t => if t = "" then "" else t
     | none => "") ++ refusalText ps

/-- Whether a message embeds a parseable JSON fragment between its
first `{` and last `}`. -/
def embedsParseableJson (raw : String) : Bool :=
  match charIndexOf '\x7b' raw.data, charLastIndexOf '\x7d' raw.data with
  | some a, some b => (parseJson (jsSubstring raw.data a (b + 1))).isSome
  | _, _ => false

/-- A retryable first failure followed by a failing second attempt,
with the credential collaborator available and resolving. -/
def c1Env : GatewayEnv String :=
  ⟨fun n => match n with
    | 0 => OpOutcome.err (ErrVal.errInstance "403")
    | _ => OpOutcome.err (ErrVal.errInstance "boom"), true, true⟩

/-- A retryable first failure followed by a succeeding second attempt. -/
def c1WitEnv : GatewayEnv String :=
  ⟨fun n => match n with
    | 0 => OpOutcome.err (ErrVal.errInstance "403")
    | _ => OpOutcome.ok "img", true, true⟩

/-- A message containing `quota` whose embedded descriptor matches no
condition and whose nested message replaces the working message. -/
def c2Raw : String := "quota \x7b\"error\":\x7b\"code\":500,\"message\":\"boom\"\x7d\x7d"

/-- A message whose embedded descriptor matches no condition of the
table, but whose nested message brings a fallback pattern in. -/
def c3Raw : String := "\x7b\"error\":\x7b\"code\":500,\"message\":\"got 403 from upstream\"\x7d\x7d"

/-- The 403 example message of the spec. -/
def c3ExRaw : String :=
  "\x7b\"error\":\x7b\"code\":403,\"status\":\"PERMISSION_DENIED\",\"message\":\"no access\"\x7d\x7d"

/-- The parsed value of `c3ExRaw`'s embedded fragment. -/
def c3ExErr : JsVal :=
  JsVal.obj [("code", JsVal.num ⟨403, 0⟩), ("status", JsVal.str "PERMISSION_DENIED"),
             ("message", JsVal.str "no access")]

/-- A retryable failure with the collaborator available but the
credential flow rejecting. -/
def c5WitEnv : GatewayEnv String :=
  ⟨fun _ => OpOutcome.err (ErrVal.errInstance "PERMISSION_DENIED"), true, false⟩

/-- A failure with no braces and no fallback pattern. -/
def c6WitEnv : GatewayEnv String :=
  ⟨fun _ => OpOutcome.err (ErrVal.errInstance "connection reset"), true, true⟩

/-- A response with one inline-data segment. -/
def imgResponse : GenResponse :=
  ⟨some [⟨some ⟨some [⟨some ⟨"image/png", "QUJD"⟩, none⟩]⟩⟩]⟩

/-- A tier-1 network failure over a tier-2 success. -/
def c7WitEnv : ImageEnv :=
  ⟨fun _ _ _ => OpOutcome.err (ErrVal.errInstance "503 unavailable"),
   fun _ _ => OpOutcome.ok imgResponse, true, true⟩

/-- A video environment whose image tiers succeed. -/
def c8WitEnv : VideoEnv :=
  ⟨⟨fun _ _ => OpOutcome.ok imgResponse, true, true⟩,
   ⟨fun _ _ _ => OpOutcome.ok imgResponse, fun _ _ => OpOutcome.ok imgResponse, true, true⟩,
   Except.error "unused"⟩

/-- A retryable first failure (message `404`) followed by a failing
second attempt. -/
def c10Env : GatewayEnv String :=
  ⟨fun n => match n with
    | 0 => OpOutcome.err (ErrVal.errInstance "404")
    | _ => OpOutcome.err (ErrVal.errInstance "second failure"), true, true⟩

/-- A non-retryable failure, prompting unavailable. -/
def c10WitEnv : GatewayEnv String :=
  ⟨fun _ => OpOutcome.err (ErrVal.errInstance "plain failure"), false, false⟩

/-- An operation succeeding on first attempt. -/
def c4WitEnv : GatewayEnv String := ⟨fun _ => OpOutcome.ok "fine", false, false⟩

/-- A first-attempt success short-circuits the gateway. -/
theorem runWithAuthRetry_ok {α : Type} (env : GatewayEnv α) (ra : Bool) (a : α)
    (h0 : env.op 0 = OpOutcome.ok a) :
    runWithAuthRetry env ra = ⟨Except.ok a, 1, 0⟩ := by
  simp only [runWithAuthRetry, h0]

/-- Characterisation of the gateway after a first-attempt failure. -/
theorem runWithAuthRetry_err {α : Type} (env : GatewayEnv α) (ra : Bool) (e : ErrVal)
    (h0 : env.op 0 = OpOutcome.err e) :
    runWithAuthRetry env ra =
      (if (classifyFailure (extractMessage e)).isPerm && ra then
        if env.aistudioAvailable then
          if env.selectKeyResolves then
            match env.op 1 with
            | OpOutcome.ok a => ⟨Except.ok a, 2, 1⟩
            | OpOutcome.err _ => ⟨Except.error connectionFailedMsg, 2, 1⟩
          else ⟨Except.error connectionFailedMsg, 1, 1⟩
        else ⟨Except.error (jsToString (classifyFailure (extractMessage e)).msg), 1, 0⟩
      else ⟨Except.error (jsToString (classifyFailure (extractMessage e)).msg), 1, 0⟩) := by
  simp only [runWithAuthRetry, h0]

/-- The gateway always invokes the operation at least once. -/
theorem runWithAuthRetry_opCalls_pos {α : Type} (env : GatewayEnv α) (ra : Bool) :
    1 ≤ (runWithAuthRetry env ra).opCalls := by
  cases h0 : env.op 0 with
  | ok a => rw [runWithAuthRetry_ok env ra a h0]
  | err e =>
    rw [runWithAuthRetry_err env ra e h0]
    repeat' split
    all_goals simp

/-- C4: every call to `runWithAuthRetry` invokes the operation thunk at
most twice and the credential prompt at most once; when the first
invocation succeeds its result is returned with zero prompts and zero
retries; and a failure of the second (retried) invocation is terminal,
resolving with one prompt, two invocations and the fixed message —
never re-classified, re-prompted or retried again. -/
theorem C4_gateway_bounds {α : Type} (env : GatewayEnv α) (requireAuth : Bool) :
    ((runWithAuthRetry env requireAuth).opCalls ≤ 2 ∧
     (runWithAuthRetry env requireAuth).promptCalls ≤ 1) ∧
    (∀ a : α, env.op 0 = OpOutcome.ok a →
      runWithAuthRetry env requireAuth = ⟨Except.ok a, 1, 0⟩) ∧
    (∀ e e' : ErrVal, env.op 0 = OpOutcome.err e → env.op 1 = OpOutcome.err e' →
      (runWithAuthRetry env requireAuth).opCalls = 2 →
      (runWithAuthRetry env requireAuth).result = Except.error connectionFailedMsg ∧
      (runWithAuthRetry env requireAuth).promptCalls = 1) := by
  refine ⟨?_, fun a h0 => runWithAuthRetry_ok env requireAuth a h0, ?_⟩
  · cases h0 : env.op 0 with
    | ok a => rw [runWithAuthRetry_ok env requireAuth a h0]; exact ⟨by simp, by simp⟩
    | err e =>
      rw [runWithAuthRetry_err env requireAuth e h0]
      repeat' split
      all_goals simp
  · intro e e' h0 h1 hcount
    rw [runWithAuthRetry_err env requireAuth e h0] at hcount ⊢
    by_cases hp : ((classifyFailure (extractMessage e)).isPerm && requireAuth) = true
    · simp only [hp, if_true] at hcount ⊢
      by_cases ha : env.aistudioAvailable = true
      · simp only [ha, if_true] at hcount ⊢
        by_cases hs : env.selectKeyResolves = true
        · simp only [hs, if_true] at hcount ⊢
          rw [h1] at hcount ⊢
          exact ⟨rfl, rfl⟩
        · simp only [hs, if_false] at hcount ⊢
          simp at hcount
      · simp only [ha, if_false] at hcount ⊢
        simp at hcount
    · simp only [hp, if_false] at hcount ⊢
      simp at hcount

/-- C4 witness: a first-attempt success at a concrete environment. -/
theorem C4_gateway_bounds_witness :
    runWithAuthRetry c4WitEnv true = ⟨Except.ok "fine", 1, 0⟩ :=
  (C4_gateway_bounds c4WitEnv true).2.1 "fine" rfl

/-- C1 (amended): for a retryable failure with prompting required, the
collaborator available and the credential flow resolving, the gateway
re-invokes the operation exactly once more; a success of that second
attempt is returned unmodified, but a failure of it is caught by the
same try block as the credential flow and resolves to the fixed
message `Connection failed. Please select a valid API Key.`, not to
the new failure. -/
theorem C1_retry_outcome {α : Type} (env : GatewayEnv α) (e : ErrVal)
    (h0 : env.op 0 = OpOutcome.err e)
    (hr : retryable (extractMessage e) = true)
    (ha : env.aistudioAvailable = true)
    (hs : env.selectKeyResolves = true) :
    (∀ a : α, env.op 1 = OpOutcome.ok a →
      runWithAuthRetry env true = ⟨Except.ok a, 2, 1⟩) ∧
    (∀ e' : ErrVal, env.op 1 = OpOutcome.err e' →
      runWithAuthRetry env true = ⟨Except.error connectionFailedMsg, 2, 1⟩) := by
  unfold retryable at hr
  rw [runWithAuthRetry_err env true e h0]
  simp only [hr, ha, hs, Bool.and_self, if_true]
  constructor
  · intro a h1; rw [h1]
  · intro e' h1; rw [h1]

/-- C1 counterexample: first failure `403` is retryable, the credential
flow resolves, the second attempt fails with `boom` — and the gateway
returns the substituted fixed message, not the new failure `boom`. -/
theorem C1_counterexample :
    runWithAuthRetry c1Env true = ⟨Except.error connectionFailedMsg, 2, 1⟩ ∧
    connectionFailedMsg ≠ "boom" :=
  ⟨rfl, by decide⟩

/-- C1 witness: a succeeding second attempt is returned unmodified. -/
theorem C1_retry_outcome_witness :
    runWithAuthRetry c1WitEnv true = ⟨Except.ok "img", 2, 1⟩ :=
  (C1_retry_outcome c1WitEnv (ErrVal.errInstance "403") rfl rfl rfl rfl).1 "img" rfl

/-- The working message is fixed by the parsing step; the fallback scan
only sets the flag. -/
theorem classifyFailure_msg (raw : String) :
    (classifyFailure raw).msg = (jsonStep raw).msg := by
  simp only [classifyFailure]
  split <;> rfl

/-- C2 (amended): a failure whose working message — after any
nested-message replacement by the parsing step — contains `quota` is
classified retryable.  The original extracted message's `quota` does
not survive a replacement by a nested message lacking it, so
retryability is decided on the post-replacement message. -/
theorem C2_quota_retryable (raw : String)
    (h : msgIncludes (classifyFailure raw).msg "quota" = true) :
    (classifyFailure raw).isPerm = true := by
  rw [classifyFailure_msg] at h
  unfold classifyFailure
  by_cases hj : (jsonStep raw).isPerm = true
  · simp [hj]
  · simp only [Bool.not_eq_true] at hj
    simp only [hj, Bool.false_eq_true, if_false]
    show fallbackMatch (jsonStep raw).msg = true
    unfold fallbackMatch
    refine List.any_eq_true.mpr ⟨"quota", ?_, h⟩
    simp [retryPatterns]

/-- C2 counterexample: the extracted message `quota {"error":{"code":
500,"message":"boom"}}` contains `quota`, yet its embedded descriptor
matches no condition, its nested message `boom` replaces the working
message, and the failure is classified non-retryable. -/
theorem C2_counterexample :
    strContains c2Raw "quota" = true ∧
    (jsonStep c2Raw).msg = JsVal.str "boom" ∧
    retryable c2Raw = false :=
  ⟨rfl, rfl, rfl⟩

/-- C2 witness: with no embedded JSON the quota substring decides. -/
theorem C2_quota_retryable_witness :
    msgIncludes (classifyFailure "quota exceeded").msg "quota" = true ∧
    (classifyFailure "quota exceeded").isPerm = true :=
  ⟨rfl, C2_quota_retryable "quota exceeded" rfl⟩

/-- The condition on a descriptor whose `message` is a string never
throws. -/
theorem evalPermCond_ok_of_str (errv : JsVal) (s : String)
    (hm : jsGet errv "message" = some (JsVal.str s)) :
    ∃ b, evalPermCond errv = Except.ok b := by
  unfold evalPermCond
  rw [hm]
  split
  · exact ⟨true, rfl⟩
  split
  · exact ⟨true, rfl⟩
  split
  · exact ⟨true, rfl⟩
  split
  · exact ⟨true, rfl⟩
  split
  · exact ⟨true, rfl⟩
  show ∃ b, (if jsTruthy (some (JsVal.str s)) = true then includesQuota (JsVal.str s)
             else Except.ok false) = Except.ok b
  by_cases hb : jsTruthy (some (JsVal.str s)) = true
  · rw [if_pos hb]
    exact ⟨strContains s "quota", rfl⟩
  · rw [if_neg hb]
    exact ⟨false, rfl⟩

/-- The parsing step on a message whose bracketed fragment parses to a
truthy `error` descriptor. -/
theorem jsonStep_eq_of_parse (raw : String) (a b : Nat) (parsed errv : JsVal)
    (ha : charIndexOf '\x7b' raw.data = some a)
    (hb : charLastIndexOf '\x7d' raw.data = some b)
    (hp : parseJson (jsSubstring raw.data a (b + 1)) = some parsed)
    (he : jsGet parsed "error" = some errv)
    (ht : jsTruthy (some errv) = true) :
    jsonStep raw =
      (match evalPermCond errv with
       | Except.ok isPerm =>
         ⟨(match jsGet errv "message" with
           | some m => if jsTruthy (some m) then m else JsVal.str raw
           | none => JsVal.str raw), isPerm⟩
       | Except.error _ => ⟨JsVal.str raw, false⟩) := by
  simp only [jsonStep]
  rw [ha, hb]
  simp only [hp, he, ht, if_true]

/-- C3 (amended): when the message embeds a parseable JSON fragment
with a truthy nested error descriptor, a satisfied descriptor
condition (code 403/404/400, status `PERMISSION_DENIED`/`NOT_FOUND`,
or a nested message containing `quota`) makes the failure retryable,
and a nonempty nested message string replaces the working message used
for final reporting.  The classification is however not *exactly*
these conditions: when the descriptor matches none of them, the
fallback substring scan of the (possibly replaced) message can still
mark the failure retryable. -/
theorem C3_descriptor_classification (raw : String) (a b : Nat) (parsed errv : JsVal)
    (ha : charIndexOf '\x7b' raw.data = some a)
    (hb : charLastIndexOf '\x7d' raw.data = some b)
    (hp : parseJson (jsSubstring raw.data a (b + 1)) = some parsed)
    (he : jsGet parsed "error" = some errv)
    (ht : jsTruthy (some errv) = true) :
    (evalPermCond errv = Except.ok true → retryable raw = true) ∧
    (∀ s : String, jsGet errv "message" = some (JsVal.str s) → s ≠ "" →
      (classifyFailure raw).msg = JsVal.str s) := by
  have hstep := jsonStep_eq_of_parse raw a b parsed errv ha hb hp he ht
  constructor
  · intro hc
    unfold retryable classifyFailure
    rw [hstep, hc]
    simp
  · intro s hm hs
    rw [classifyFailure_msg, hstep]
    obtain ⟨bb, hbb⟩ := evalPermCond_ok_of_str errv s hm
    rw [hbb, hm]
    simp [jsTruthy, hs]

/-- C3 counterexample: in `{"error":{"code":500,"message":"got 403
from upstream"}}` the descriptor satisfies none of the table
conditions (the parsing step sets no flag, visible in its replaced
message and clear flag), yet the failure is classified retryable — the
fallback scan matches `403` inside the replaced message.  This
refutes the claimed "exactly when". -/
theorem C3_counterexample :
    (jsonStep c3Raw).msg = JsVal.str "got 403 from upstream" ∧
    (jsonStep c3Raw).isPerm = false ∧
    retryable c3Raw = true :=
  ⟨rfl, rfl, rfl⟩

/-- C3 witness: the spec's 403 example is retryable and reports
`no access`. -/
theorem C3_descriptor_classification_witness :
    retryable c3ExRaw = true ∧ (classifyFailure c3ExRaw).msg = JsVal.str "no access" := by
  have h := C3_descriptor_classification c3ExRaw 0 (c3ExRaw.length - 1)
    (JsVal.obj [("error", c3ExErr)]) c3ExErr rfl rfl rfl rfl rfl
  exact ⟨h.1 rfl, h.2 "no access" rfl (by decide)⟩

/-- C5: for a retryable failure with prompting enabled and the
collaborator available, a rejecting credential-selection flow makes
the gateway fail with the fixed message `Connection failed. Please
select a valid API Key.` — necessarily distinct from the original
extracted message, which was retryable while the fixed message is not
— without invoking the operation a second time. -/
theorem C5_prompt_failure {α : Type} (env : GatewayEnv α) (e : ErrVal)
    (h0 : env.op 0 = OpOutcome.err e)
    (hr : retryable (extractMessage e) = true)
    (ha : env.aistudioAvailable = true)
    (hs : env.selectKeyResolves = false) :
    runWithAuthRetry env true = ⟨Except.error connectionFailedMsg, 1, 1⟩ ∧
    extractMessage e ≠ connectionFailedMsg := by
  constructor
  · rw [runWithAuthRetry_err env true e h0]
    unfold retryable at hr
    simp [hr, ha, hs]
  · intro heq
    rw [heq] at hr
    have hfix : retryable connectionFailedMsg = false := rfl
    rw [hfix] at hr
    exact Bool.false_ne_true hr

/-- C5 witness: a rejecting credential flow at a concrete retryable
failure. -/
theorem C5_prompt_failure_witness :
    runWithAuthRetry c5WitEnv true = ⟨Except.error connectionFailedMsg, 1, 1⟩ ∧
    extractMessage (ErrVal.errInstance "PERMISSION_DENIED") ≠ connectionFailedMsg :=
  C5_prompt_failure c5WitEnv (ErrVal.errInstance "PERMISSION_DENIED") rfl rfl rfl rfl

/-- Without a parseable bracketed fragment the parsing step changes
nothing. -/
theorem jsonStep_of_no_json (raw : String)
    (hj : embedsParseableJson raw = false) :
    jsonStep raw = ⟨JsVal.str raw, false⟩ := by
  unfold embedsParseableJson at hj
  cases hia : charIndexOf '\x7b' raw.data with
  | none => simp only [jsonStep, hia]
  | some a =>
    cases hib : charLastIndexOf '\x7d' raw.data with
    | none => simp only [jsonStep, hia, hib]
    | some b =>
      rw [hia, hib] at hj
      simp only [jsonStep, hia, hib]
      cases hp : parseJson (jsSubstring raw.data a (b + 1)) with
      | none => simp only [hp]
      | some v =>
        simp [hp] at hj

/-- C6: a failure whose message embeds no parseable JSON and matches
none of the fixed patterns fails immediately with that message — one
operation invocation, zero prompts — whatever the `requireAuth` flag
and the collaborator's state. -/
theorem C6_unmatched_fail_fast {α : Type} (env : GatewayEnv α) (ra : Bool) (e : ErrVal)
    (h0 : env.op 0 = OpOutcome.err e)
    (hj : embedsParseableJson (extractMessage e) = false)
    (hm : fallbackMatch (JsVal.str (extractMessage e)) = false) :
    runWithAuthRetry env ra = ⟨Except.error (extractMessage e), 1, 0⟩ := by
  have hstep := jsonStep_of_no_json (extractMessage e) hj
  have hclass : classifyFailure (extractMessage e) = ⟨JsVal.str (extractMessage e), false⟩ := by
    unfold classifyFailure
    rw [hstep]
    simp [hm]
  rw [runWithAuthRetry_err env ra e h0, hclass]
  simp [jsToString]

/-- C6 witness: the spec's `connection reset` example. -/
theorem C6_unmatched_fail_fast_witness :
    runWithAuthRetry c6WitEnv true = ⟨Except.error "connection reset", 1, 0⟩ :=
  C6_unmatched_fail_fast c6WitEnv true (ErrVal.errInstance "connection reset") rfl rfl rfl

/-- C10 (amended): every failing gateway path throws a freshly
constructed error — the model's failure result carries only a string
message, never the original failure value — whose message is either
the (possibly replaced) working message or the fixed
credential-failure message; the retry path substitutes the fixed
message, so the working message is not the only possibility. -/
theorem C10_failure_message_source {α : Type} (env : GatewayEnv α) (ra : Bool)
    (e : ErrVal) (m : String)
    (h0 : env.op 0 = OpOutcome.err e)
    (hm : (runWithAuthRetry env ra).result = Except.error m) :
    m = jsToString (classifyFailure (extractMessage e)).msg ∨ m = connectionFailedMsg := by
  rw [runWithAuthRetry_err env ra e h0] at hm
  by_cases hp : ((classifyFailure (extractMessage e)).isPerm && ra) = true
  · simp only [hp, if_true] at hm
    by_cases ha : env.aistudioAvailable = true
    · simp only [ha, if_true] at hm
      by_cases hs : env.selectKeyResolves = true
      · simp only [hs, if_true] at hm
        cases h1 : env.op 1 with
        | ok a => rw [h1] at hm; simp at hm
        | err e' => rw [h1] at hm; simp at hm; exact Or.inr hm.symm
      · simp only [hs, if_false] at hm; simp at hm; exact Or.inr hm.symm
    · simp only [ha, if_false] at hm; simp at hm; exact Or.inl hm.symm
  · simp only [hp, if_false] at hm; simp at hm; exact Or.inl hm.symm

/-- C10 counterexample: for first failure `404` with a failing second
attempt, the thrown message is the fixed credential message, not the
extracted working message `404` — so the thrown message is not always
the working message. -/
theorem C10_counterexample :
    (runWithAuthRetry c10Env true).result = Except.error connectionFailedMsg ∧
    jsToString (classifyFailure "404").msg = "404" ∧
    connectionFailedMsg ≠ "404" :=
  ⟨rfl, rfl, by decide⟩

/-- C10 witness: a non-retryable failure's thrown message is its
working message. -/
theorem C10_failure_message_source_witness :
    "plain failure" =
      jsToString (classifyFailure (extractMessage (ErrVal.errInstance "plain failure"))).msg ∨
    "plain failure" = connectionFailedMsg :=
  C10_failure_message_source c10WitEnv true (ErrVal.errInstance "plain failure") "plain failure" rfl rfl

/-- C7: in `generateImage` a tier-1 success with a successful payload
extraction returns directly — zero tier-2 invocations, zero prompts —
while any tier-1 failure, network or payload-extraction alike, is
swallowed and the whole run becomes the tier-2 attempt through the
gateway with prompting enabled, invoked at least once. -/
theorem C7_tier_fallback (prompt : String) (ratio : AspectRatio) (size : ImageSize)
    (env : ImageEnv) :
    (∀ r uri, env.tier1 prompt ratio size = OpOutcome.ok r →
      extractImageFromResponse r = Except.ok uri →
      generateImage prompt ratio size env = ⟨Except.ok uri, 0, 0⟩) ∧
    (∀ e, env.tier1 prompt ratio size = OpOutcome.err e →
      generateImage prompt ratio size env =
        ⟨(runWithAuthRetry (tier2Gateway env prompt) true).result,
         (runWithAuthRetry (tier2Gateway env prompt) true).opCalls,
         (runWithAuthRetry (tier2Gateway env prompt) true).promptCalls⟩ ∧
      1 ≤ (generateImage prompt ratio size env).tier2Calls) ∧
    (∀ r em, env.tier1 prompt ratio size = OpOutcome.ok r →
      extractImageFromResponse r = Except.error em →
      generateImage prompt ratio size env =
        ⟨(runWithAuthRetry (tier2Gateway env prompt) true).result,
         (runWithAuthRetry (tier2Gateway env prompt) true).opCalls,
         (runWithAuthRetry (tier2Gateway env prompt) true).promptCalls⟩ ∧
      1 ≤ (generateImage prompt ratio size env).tier2Calls) := by
  refine ⟨?_, ?_, ?_⟩
  · intro r uri h1 h2
    simp only [generateImage, h1, h2]
  · intro e h1
    refine ⟨by simp only [generateImage, h1], ?_⟩
    simp only [generateImage, h1]
    exact runWithAuthRetry_opCalls_pos _ _
  · intro r em h1 h2
    refine ⟨by simp only [generateImage, h1, h2], ?_⟩
    simp only [generateImage, h1, h2]
    exact runWithAuthRetry_opCalls_pos _ _

/-- C7 witness: a concrete tier-1 network failure falls back to the
gateway-wrapped tier-2 attempt. -/
theorem C7_tier_fallback_witness :
    generateImage "p" AspectRatio.SQUARE ImageSize.K1 c7WitEnv =
      ⟨(runWithAuthRetry (tier2Gateway c7WitEnv "p") true).result,
       (runWithAuthRetry (tier2Gateway c7WitEnv "p") true).opCalls,
       (runWithAuthRetry (tier2Gateway c7WitEnv "p") true).promptCalls⟩ ∧
    1 ≤ (generateImage "p" AspectRatio.SQUARE ImageSize.K1 c7WitEnv).tier2Calls :=
  ((C7_tier_fallback "p" AspectRatio.SQUARE ImageSize.K1 c7WitEnv).2.1)
    (ErrVal.errInstance "503 unavailable") rfl

/-- C8: with the pro-mode flag unset `generateVideo` never invokes the
video backend: a truthy reference image redirects to `editImage` (with
the sniffed MIME type and defaulted prompt), anything else redirects
to `generateImage`, and that image result is the outcome. -/
theorem C8_video_redirect (prompt : String) (aspect : VideoAspect)
    (refImg : Option String) (env : VideoEnv) :
    (generateVideo prompt aspect refImg false env).videoBackendCalls = 0 ∧
    (∀ ri, refImg = some ri → ri ≠ "" →
      (generateVideo prompt aspect refImg false env).result =
        (editImage ri (jsOrDefault prompt "Enhance this") (mimeFromDataUri ri) env.editEnv).result) ∧
    ((refImg = none ∨ refImg = some "") →
      (generateVideo prompt aspect refImg false env).result =
        (generateImage (jsOrDefault prompt "Preview") (vidRatioEnum aspect)
          ImageSize.K1 env.imgEnv).result) := by
  cases refImg with
  | none =>
    refine ⟨by simp [generateVideo], ?_, ?_⟩
    · intro ri h
      cases h
    · intro _
      simp [generateVideo]
  | some ri =>
    by_cases hri : ri = ""
    · subst hri
      refine ⟨by simp [generateVideo], ?_, ?_⟩
      · intro ri' h h2
        cases h
        exact absurd rfl h2
      · intro _
        simp [generateVideo]
    · refine ⟨by simp [generateVideo, hri], ?_, ?_⟩
      · intro ri' h h2
        cases h
        simp [generateVideo, hri]
      · intro hcase
        rcases hcase with h | h
        · cases h
        · cases h
          exact absurd rfl hri

/-- C8 witness: with no reference image the non-pro request becomes an
image generation. -/
theorem C8_video_redirect_witness :
    (generateVideo "p" VideoAspect.wide none false c8WitEnv).result =
      (generateImage (jsOrDefault "p" "Preview") (vidRatioEnum VideoAspect.wide)
        ImageSize.K1 c8WitEnv.imgEnv).result :=
  ((C8_video_redirect "p" VideoAspect.wide none c8WitEnv).2.2) (Or.inl rfl)

/-- One accumulation step appends exactly the segment's truthy text. -/
theorem accText_eq (p : ContentPart) (acc : String) :
    accText p acc = acc ++ (match p.text with
      | some t => if t = "" then "" else t
      | none => "") := by
  unfold accText
  cases p.text with
  | none => simp [String.append_empty]
  | some t =>
    by_cases ht : t = ""
    · simp [ht, String.append_empty]
    · simp [ht]

/-- The segment scan refines its specification: the first truthy
inline datum yields the data URI; with none, the accumulated text
decides between the refusal and the no-data failure. -/
theorem scanParts_spec (tag noData : String) (ps : List ContentPart) (acc : String) :
    (∀ d, firstInlineData ps = some d →
      scanParts tag noData ps acc = Except.ok ("data:image/png;base64," ++ d)) ∧
    (firstInlineData ps = none →
      scanParts tag noData ps acc =
        (if acc ++ refusalText ps = "" then Except.error noData
         else Except.error (tag ++ (acc ++ refusalText ps)))) := by
  induction ps generalizing acc with
  | nil =>
    refine ⟨?_, ?_⟩
    · intro d hd
      cases hd
    · intro _
      simp [scanParts, refusalText, String.append_empty]
  | cons p ps ih =>
    have hacc : accText p acc ++ refusalText ps = acc ++ refusalText (p :: ps) := by
      rw [accText_eq, String.append_assoc]
      rfl
    refine ⟨?_, ?_⟩
    · intro d hd
      cases hpi : p.inlineData with
      | some idata =>
        by_cases hdata : idata.data = ""
        · have hfid : firstInlineData (p :: ps) = firstInlineData ps := by
            simp [firstInlineData, hpi, hdata]
          rw [hfid] at hd
          simp only [scanParts, hpi, hdata, if_pos]
          exact (ih (accText p acc)).1 d hd
        · have hfid : firstInlineData (p :: ps) = some idata.data := by
            simp [firstInlineData, hpi, hdata]
          rw [hfid] at hd
          injection hd with h
          subst h
          simp [scanParts, hpi, hdata]
      | none =>
        have hfid : firstInlineData (p :: ps) = firstInlineData ps := by
          simp [firstInlineData, hpi]
        rw [hfid] at hd
        simp only [scanParts, hpi]
        exact (ih (accText p acc)).1 d hd
    · intro hd
      cases hpi : p.inlineData with
      | some idata =>
        by_cases hdata : idata.data = ""
        · have hfid : firstInlineData (p :: ps) = firstInlineData ps := by
            simp [firstInlineData, hpi, hdata]
          rw [hfid] at hd
          simp only [scanParts, hpi, hdata, if_pos]
          rw [(ih (accText p acc)).2 hd, hacc]
        · have hfid : firstInlineData (p :: ps) = some idata.data := by
            simp [firstInlineData, hpi, hdata]
          rw [hfid] at hd
          cases hd
      | none =>
        have hfid : firstInlineData (p :: ps) = firstInlineData ps := by
          simp [firstInlineData, hpi]
        rw [hfid] at hd
        simp only [scanParts, hpi]
        rw [(ih (accText p acc)).2 hd, hacc]

/-- Dropping the 22-character URI head recovers the payload verbatim. -/
theorem dataUri_payload (d : String) :
    ("data:image/png;base64," ++ d).data.drop 22 = d.data := by
  rw [String.data_append]
  have h : ("data:image/png;base64,").data.length = 22 := rfl
  rw [← h, List.drop_left]

/-- C9: payload extraction scans segments in order; the first segment
carrying truthy inline data yields `data:image/png;base64,` followed
by the source payload verbatim (dropping the head recovers the payload
byte for byte), and with no such segment the operation fails with the
accumulated refusal text when nonempty, else the generic no-data
failure. -/
theorem C9_extraction (r : GenResponse) :
    (∀ d, firstInlineData ((getParts r).getD []) = some d →
      extractImageFromResponse r = Except.ok ("data:image/png;base64," ++ d) ∧
      ("data:image/png;base64," ++ d).data.drop 22 = d.data) ∧
    (firstInlineData ((getParts r).getD []) = none →
      extractImageFromResponse r =
        (if refusalText ((getParts r).getD []) = ""
         then Except.error "No image data returned."
         else Except.error ("Model refused: " ++ refusalText ((getParts r).getD [])))) := by
  cases hgp : getParts r with
  | none =>
    refine ⟨?_, ?_⟩
    · intro d hd
      simp [Option.getD, firstInlineData] at hd
    · intro _
      simp [extractImageFromResponse, hgp, refusalText, Option.getD]
  | some ps =>
    refine ⟨?_, ?_⟩
    · intro d hd
      simp only [Option.getD] at hd
      refine ⟨?_, dataUri_payload d⟩
      simp only [extractImageFromResponse, hgp]
      exact (scanParts_spec "Model refused: " "No image data returned." ps "").1 d hd
    · intro hd
      simp only [Option.getD] at hd
      simp only [extractImageFromResponse, hgp, Option.getD]
      rw [(scanParts_spec "Model refused: " "No image data returned." ps "").2 hd]
      simp only [String.empty_append]

/-- C9 witness: a concrete response with one inline-data segment. -/
theorem C9_extraction_witness :
    extractImageFromResponse imgResponse = Except.ok ("data:image/png;base64," ++ "QUJD") ∧
    ("data:image/png;base64," ++ "QUJD").data.drop 22 = ("QUJD" : String).data :=
  (C9_extraction imgResponse).1 "QUJD" rfl
